import Mathlib

/-!
Verification of the Grade/CGPA Computation and Notification Dispatch
subsystem of the grade-sms-advisor repository.

The definitions below are shallow embeddings of the TypeScript functions in
`src/components/ResultEntry.tsx` (together with the SMSNotifications
component bundled in the same file), `src/components/CGPAAnalyzer.tsx`,
`src/components/Dashboard.tsx`, and of the SQL function `calculate_grade`
from the Supabase migration.  Numeric scores and GPAs are modelled as exact
rationals: the store keeps them in SQL `DECIMAL` columns and the code only
compares them against decimal literals.
-/

/-- Result of `calculateGradeInfo` in `ResultEntry.tsx`: letter grade,
grade point and a presentation colour class. -/
structure GradeInfo where
  grade : String
  grade_point : ℚ
  color : String
deriving DecidableEq, Repr

/-- `calculateGradeInfo` from `ResultEntry.tsx` lines 92-99: maps a score to
a grade, grade point and colour via a top-down threshold chain. -/
def calculateGradeInfo (score : ℚ) : GradeInfo :=
  if score ≥ 70 then ⟨"A", 4.0, "bg-success"⟩
  else if score ≥ 60 then ⟨"B", 3.0, "bg-primary"⟩
  else if score ≥ 50 then ⟨"C", 2.0, "bg-accent"⟩
  else if score ≥ 45 then ⟨"D", 1.0, "bg-warning"⟩
  else if score ≥ 40 then ⟨"E", 0.0, "bg-warning"⟩
  else ⟨"F", 0.0, "bg-destructive"⟩

/-- The SQL function `public.calculate_grade` from the migration file:
two parallel CASE expressions returning (grade, grade_point). -/
def calculate_grade (score : ℚ) : String × ℚ :=
  ( if score ≥ 70 then "A"
    else if score ≥ 60 then "B"
    else if score ≥ 50 then "C"
    else if score ≥ 45 then "D"
    else if score ≥ 40 then "E"
    else "F",
    if score ≥ 70 then 4.0
    else if score ≥ 60 then 3.0
    else if score ≥ 50 then 2.0
    else if score ≥ 45 then 1.0
    else if score ≥ 40 then 0.0
    else 0.0 )

/-- `getClassification` from `CGPAAnalyzer.tsx` lines 133-139. -/
def getClassification (cgpa : ℚ) : String :=
  if cgpa ≥ 3.7 then "First Class Honours"
  else if cgpa ≥ 3.3 then "Second Class Honours (Upper Division)"
  else if cgpa ≥ 2.7 then "Second Class Honours (Lower Division)"
  else if cgpa ≥ 2.0 then "Third Class Honours"
  else "Pass"

/-- Semester row fields joined onto CGPA records and results
(`semesters (name, year)` in the select clauses). -/
structure SemesterInfo where
  name : String
  year : Int
deriving DecidableEq, Repr

/-- The `CGPARecord` interface of `CGPAAnalyzer.tsx`. -/
structure CGPARecord where
  semester_gpa : ℚ
  cumulative_gpa : ℚ
  total_credit_units : Int
  semesters : SemesterInfo
deriving DecidableEq, Repr

instance : Inhabited CGPARecord := ⟨⟨0, 0, 0, ⟨"", 0⟩⟩⟩

/-- The `'up' | 'down' | 'stable'` trend indicator of `CGPAAnalyzer.tsx`. -/
inductive Trend
  | up
  | down
  | stable
deriving DecidableEq, Repr

/-- The `'low' | 'medium' | 'high'` risk level of `CGPAAnalyzer.tsx`. -/
inductive Risk
  | low
  | medium
  | high
deriving DecidableEq, Repr

/-- The trend computation inside `analyzeCGPA` (`CGPAAnalyzer.tsx` lines
97-103): `records.slice(-2)` is `drop (length - 2)`; the guarded index
accesses are modelled with `getD` (they are in bounds under the guard). -/
def computeTrend (records : List CGPARecord) : Trend :=
  if records.length > 1 then
    let lastTwo := records.drop (records.length - 2)
    if (lastTwo.getD 1 default).cumulative_gpa > (lastTwo.getD 0 default).cumulative_gpa then
      Trend.up
    else if (lastTwo.getD 1 default).cumulative_gpa < (lastTwo.getD 0 default).cumulative_gpa then
      Trend.down
    else Trend.stable
  else Trend.stable

/-- `getRecommendations` from `CGPAAnalyzer.tsx` lines 141-181: a base tier
of (riskLevel, recommendation strings) chosen from the absolute CGPA,
followed by an optional trend-overlay recommendation pushed at the end. -/
def getRecommendations (cgpa : ℚ) (records : List CGPARecord) : Risk × List String :=
  let base : Risk × List String :=
    if cgpa < 2.0 then
      (Risk.high,
        ["Seek academic counseling immediately",
         "Consider reducing course load to focus on improving grades",
         "Utilize tutoring services and study groups",
         "Meet with academic advisor to discuss academic standing"])
    else if cgpa < 2.7 then
      (Risk.medium,
        ["Improve study habits and time management",
         "Seek help from professors during office hours",
         "Consider forming study groups with classmates",
         "Focus on courses with higher credit values"])
    else if cgpa < 3.3 then
      (Risk.low,
        ["Maintain consistent study schedule",
         "Challenge yourself with advanced courses",
         "Consider research opportunities or internships"])
    else
      (Risk.low,
        ["Excellent performance! Keep up the good work",
         "Consider pursuing honors programs or research",
         "Explore leadership opportunities",
         "Prepare for graduate school applications if interested"])
  let recommendations :=
    if records.length > 1 then
      let trend := (records.getD (records.length - 1) default).cumulative_gpa -
                   (records.getD (records.length - 2) default).cumulative_gpa
      if trend < -0.2 then
        base.2 ++ ["Address declining performance - identify problem areas"]
      else if trend > 0.2 then
        base.2 ++ ["Great improvement! Continue with current strategies"]
      else base.2
    else base.2
  (base.1, recommendations)

/-- The analysis record assembled by `analyzeCGPA` (data fields only;
the `student` and raw `records` fields are pass-throughs). -/
structure CGPAAnalysis where
  currentCGPA : ℚ
  trend : Trend
  classification : String
  recommendations : List String
  riskLevel : Risk
deriving DecidableEq, Repr

/-- The pure core of `analyzeCGPA` (`CGPAAnalyzer.tsx` lines 93-110), as a
function of the fetched CGPA record list. -/
def analyzeCGPA (records : List CGPARecord) : CGPAAnalysis :=
  let currentCGPA :=
    if records.length > 0 then (records.getD (records.length - 1) default).cumulative_gpa
    else 0
  let trend := computeTrend records
  let classification := getClassification currentCGPA
  let recs := getRecommendations currentCGPA records
  ⟨currentCGPA, trend, classification, recs.2, recs.1⟩

/-- The average-CGPA computation of `fetchDashboardStats`
(`Dashboard.tsx` lines 73-79): a guarded unweighted mean over the
`cumulative_gpa` column. -/
def averageCGPA (cgpaData : List ℚ) : ℚ :=
  if cgpaData.length > 0 then
    cgpaData.foldl (fun sum record => sum + record) 0 / (cgpaData.length : ℚ)
  else 0

/-- The grade-histogram computation of `fetchDashboardStats`
(`Dashboard.tsx` lines 63-70): a reduce over the `grade` column building a
key-to-count map (modelled as an association list in key insertion order). -/
def gradeDistribution (gradeData : List String) : List (String × ℕ) :=
  gradeData.foldl
    (fun acc g =>
      match acc.lookup g with
      | some n => acc.map (fun p => if p.1 = g then (p.1, n + 1) else p)
      | none => acc ++ [(g, 1)])
    []

/-- Student row fields used by the SMS components. -/
structure StudentInfo where
  first_name : String
  last_name : String
  student_id : String
  phone_number : String
deriving DecidableEq, Repr

/-- Course row fields used by the SMS components. -/
structure CourseInfo where
  course_code : String
  course_name : String
deriving DecidableEq, Repr

/-- A row of the `results` table joined with its student/course/semester,
as in the `PendingResult` interface of the SMSNotifications component
(`select *` also carries the `sms_sent` flag and grade point). -/
structure PendingResult where
  id : String
  score : ℚ
  grade : String
  grade_point : ℚ
  sms_sent : Bool
  students : StudentInfo
  courses : CourseInfo
  semesters : SemesterInfo
deriving DecidableEq, Repr

/-- `generateMessage` from the SMSNotifications component: the notification
template string. -/
def generateMessage (result : PendingResult) : String :=
  "Dear " ++ result.students.first_name ++ ", your " ++
    result.courses.course_code ++ " (" ++ result.courses.course_name ++
    ") result for " ++ result.semesters.name ++ " " ++
    toString result.semesters.year ++ " is now available. Score: " ++
    toString result.score ++ "% (Grade " ++ result.grade ++
    "). Visit the portal for details."

/-- `fetchPendingResults`: selects the results whose `sms_sent` flag is
false (`.eq('sms_sent', false)`), in store order. -/
def fetchPendingResults (store : List PendingResult) : List PendingResult :=
  store.filter (fun r => r.sms_sent == false)

/-- The store update issued by `sendSingleSMS`:
`update({ sms_sent: true }).eq('id', result.id)`. -/
def markSent (store : List PendingResult) (id0 : String) : List PendingResult :=
  store.map (fun x => if x.id = id0 then { x with sms_sent := true } else x)

/-- The try-block of `sendSingleSMS`: render the message, invoke the
fallible send step (transport call plus `sms_sent` store update, abstracted
by the `sendOk` predicate), and either persist the flag or raise.  Returns
the new store and the outcome of the block. -/
def sendSingleSMSTry (sendOk : PendingResult → Bool) (store : List PendingResult)
    (result : PendingResult) : List PendingResult × Except String Unit :=
  if sendOk result then (markSent store result.id, Except.ok ())
  else (store, Except.error ("Failed to send SMS to " ++ result.students.phone_number))

/-- `sendSingleSMS` from the SMSNotifications component: runs the try-block
and catches any error in its own catch clause (logging and showing a toast);
the error is not rethrown, so the caller always observes normal
completion. -/
def sendSingleSMS (sendOk : PendingResult → Bool) (store : List PendingResult)
    (result : PendingResult) : List PendingResult × Except String Unit :=
  match sendSingleSMSTry sendOk store result with
  | (store1, Except.ok _) => (store1, Except.ok ())
  | (store1, Except.error _) => (store1, Except.ok ())

/-- One iteration of the `sendBulkSMS` loop: `await sendSingleSMS(result)`
inside a try/catch; a normal completion increments `successCount` and a
raised error increments `failCount`. -/
def bulkStep (sendOk : PendingResult → Bool) (acc : List PendingResult × ℕ × ℕ)
    (result : PendingResult) : List PendingResult × ℕ × ℕ :=
  match sendSingleSMS sendOk acc.1 result with
  | (store1, Except.ok _) => (store1, acc.2.1 + 1, acc.2.2)
  | (store1, Except.error _) => (store1, acc.2.1, acc.2.2 + 1)

/-- `sendBulkSMS` from the SMSNotifications component: iterate the captured
pending list sequentially, then report (store, successCount, failCount). -/
def sendBulkSMS (sendOk : PendingResult → Bool) (pendingResults : List PendingResult)
    (store : List PendingResult) : List PendingResult × ℕ × ℕ :=
  pendingResults.foldl (bulkStep sendOk) (store, 0, 0)

/-- The toast description template of `sendBulkSMS`. -/
def bulkSummary (successCount failCount : ℕ) : String :=
  toString successCount ++ " messages sent successfully, " ++
    toString failCount ++ " failed"

/-- The form fields of `handleAddResult` other than the derived ones. -/
structure ResultForm where
  newId : String
  score : ℚ
  student : StudentInfo
  course : CourseInfo
  semester : SemesterInfo
deriving DecidableEq, Repr

/-- `handleAddResult` from `ResultEntry.tsx` lines 101-148: validate the
score, derive the grade info, and insert a row; the insert does not set
`sms_sent`, whose column default is `false`. -/
def handleAddResult (store : List PendingResult) (form : ResultForm) :
    List PendingResult :=
  if form.score < 0 ∨ form.score > 100 then store
  else
    let gradeInfo := calculateGradeInfo form.score
    store ++ [{ id := form.newId, score := form.score, grade := gradeInfo.grade,
                grade_point := gradeInfo.grade_point, sms_sent := false,
                students := form.student, courses := form.course,
                semesters := form.semester }]

/-- The operations of the system that touch rows of the `results` table. -/
inductive Op
  | addResult (form : ResultForm)
  | singleSMS (sendOk : PendingResult → Bool) (result : PendingResult)
  | bulkSMS (sendOk : PendingResult → Bool) (pendingResults : List PendingResult)

/-- Effect of one operation on the stored `results` rows. -/
def applyOp (store : List PendingResult) : Op → List PendingResult
  | Op.addResult form => handleAddResult store form
  | Op.singleSMS sendOk r => (sendSingleSMS sendOk store r).1
  | Op.bulkSMS sendOk pending => (sendBulkSMS sendOk pending store).1

/-- Effect of a sequence of operations on the stored `results` rows. -/
def runOps (store : List PendingResult) (ops : List Op) : List PendingResult :=
  ops.foldl applyOp store

/-- C2: for every score in [0,100], the client-side `calculateGradeInfo`
and the SQL `calculate_grade` return the same (grade, grade_point) pair. -/
theorem grade_client_sql_agree (score : ℚ) (h0 : 0 ≤ score) (h100 : score ≤ 100) :
    (calculateGradeInfo score).grade = (calculate_grade score).1 ∧
    (calculateGradeInfo score).grade_point = (calculate_grade score).2 := by
  unfold calculateGradeInfo calculate_grade
  split_ifs <;> exact ⟨rfl, rfl⟩

/-- Witness for C2 at the boundary score 70. -/
theorem grade_client_sql_agree_witness :
    (0 : ℚ) ≤ 70 ∧ (70 : ℚ) ≤ 100 ∧
    ((calculateGradeInfo 70).grade = (calculate_grade 70).1 ∧
     (calculateGradeInfo 70).grade_point = (calculate_grade 70).2) :=
  ⟨by decide, by decide, grade_client_sql_agree 70 (by decide) (by decide)⟩

/-- C3: the eleven boundary scores map to exactly the claimed grades and
grade points, and each threshold band yields its fixed output (first
matching band wins, top-down). -/
theorem grade_boundary_exact :
    (([39, 40, 44, 45, 49, 50, 59, 60, 69, 70, 100] : List ℚ).map
        (fun s => ((calculateGradeInfo s).grade, (calculateGradeInfo s).grade_point)) =
      [("F", 0), ("E", 0), ("E", 0), ("D", 1), ("D", 1), ("C", 2), ("C", 2),
       ("B", 3), ("B", 3), ("A", 4), ("A", 4)]) ∧
    (∀ s : ℚ, 70 ≤ s → calculateGradeInfo s = ⟨"A", 4.0, "bg-success"⟩) ∧
    (∀ s : ℚ, 60 ≤ s → s < 70 → calculateGradeInfo s = ⟨"B", 3.0, "bg-primary"⟩) ∧
    (∀ s : ℚ, 50 ≤ s → s < 60 → calculateGradeInfo s = ⟨"C", 2.0, "bg-accent"⟩) ∧
    (∀ s : ℚ, 45 ≤ s → s < 50 → calculateGradeInfo s = ⟨"D", 1.0, "bg-warning"⟩) ∧
    (∀ s : ℚ, 40 ≤ s → s < 45 → calculateGradeInfo s = ⟨"E", 0.0, "bg-warning"⟩) ∧
    (∀ s : ℚ, s < 40 → calculateGradeInfo s = ⟨"F", 0.0, "bg-destructive"⟩) := by
  refine ⟨by norm_num [calculateGradeInfo], ?_, ?_, ?_, ?_, ?_, ?_⟩
  · intro s h1
    unfold calculateGradeInfo
    split_ifs <;> first | rfl | (exfalso; linarith)
  · intro s h1 h2
    unfold calculateGradeInfo
    split_ifs <;> first | rfl | (exfalso; linarith)
  · intro s h1 h2
    unfold calculateGradeInfo
    split_ifs <;> first | rfl | (exfalso; linarith)
  · intro s h1 h2
    unfold calculateGradeInfo
    split_ifs <;> first | rfl | (exfalso; linarith)
  · intro s h1 h2
    unfold calculateGradeInfo
    split_ifs <;> first | rfl | (exfalso; linarith)
  · intro s h1
    unfold calculateGradeInfo
    split_ifs <;> first | rfl | (exfalso; linarith)

/-- C4: the nine boundary CGPA values classify exactly as claimed, and each
descending threshold band yields its fixed label (first match wins). -/
theorem classification_boundary_exact :
    (([1.9, 2.0, 2.6, 2.7, 3.2, 3.3, 3.6, 3.7, 4.0] : List ℚ).map getClassification =
      ["Pass", "Third Class Honours", "Third Class Honours",
       "Second Class Honours (Lower Division)", "Second Class Honours (Lower Division)",
       "Second Class Honours (Upper Division)", "Second Class Honours (Upper Division)",
       "First Class Honours", "First Class Honours"]) ∧
    (∀ c : ℚ, 3.7 ≤ c → getClassification c = "First Class Honours") ∧
    (∀ c : ℚ, 3.3 ≤ c → c < 3.7 →
      getClassification c = "Second Class Honours (Upper Division)") ∧
    (∀ c : ℚ, 2.7 ≤ c → c < 3.3 →
      getClassification c = "Second Class Honours (Lower Division)") ∧
    (∀ c : ℚ, 2.0 ≤ c → c < 2.7 → getClassification c = "Third Class Honours") ∧
    (∀ c : ℚ, c < 2.0 → getClassification c = "Pass") := by
  refine ⟨by norm_num [getClassification], ?_, ?_, ?_, ?_, ?_⟩
  · intro c h1
    unfold getClassification
    split_ifs <;> first | rfl | (exfalso; linarith)
  · intro c h1 h2
    unfold getClassification
    split_ifs <;> first | rfl | (exfalso; linarith)
  · intro c h1 h2
    unfold getClassification
    split_ifs <;> first | rfl | (exfalso; linarith)
  · intro c h1 h2
    unfold getClassification
    split_ifs <;> first | rfl | (exfalso; linarith)
  · intro c h1
    unfold getClassification
    split_ifs <;> first | rfl | (exfalso; linarith)

/-- The element at index `l.length + 1` of `l ++ [a, b]` is `b`. -/
lemma getD_append_pair_snd {α : Type} (l : List α) (a b d : α) :
    (l ++ [a, b]).getD (l.length + 1) d = b := by
  induction l with
  | nil => rfl
  | cons x l ih => simpa [List.getD] using ih

/-- The element at index `l.length` of `l ++ [a, b]` is `a`. -/
lemma getD_append_pair_fst {α : Type} (l : List α) (a b d : α) :
    (l ++ [a, b]).getD l.length d = a := by
  induction l with
  | nil => rfl
  | cons x l ih => simpa [List.getD] using ih

/-- C5: for any record list with at least two elements (written as
`rs ++ [a, b]`, so `b` is the latest and `a` the previous record), the
recommendation list is the base-tier list (the output on an empty history)
with exactly one overlay appended when the delta passes ±0.2, and nothing
appended otherwise. -/
theorem trend_overlay_append (cgpa : ℚ) (rs : List CGPARecord) (a b : CGPARecord)
    (records : List CGPARecord) (h : records = rs ++ [a, b]) :
    (getRecommendations cgpa records).2 =
      (getRecommendations cgpa []).2 ++
        (if b.cumulative_gpa - a.cumulative_gpa < -0.2 then
           ["Address declining performance - identify problem areas"]
         else if b.cumulative_gpa - a.cumulative_gpa > 0.2 then
           ["Great improvement! Continue with current strategies"]
         else []) := by
  subst h
  have hlen : (rs ++ [a, b]).length = rs.length + 2 := by simp
  have hb : (rs ++ [a, b]).getD ((rs ++ [a, b]).length - 1) default = b := by
    rw [hlen]
    simpa using getD_append_pair_snd rs a b default
  have ha : (rs ++ [a, b]).getD ((rs ++ [a, b]).length - 2) default = a := by
    rw [hlen]
    simpa using getD_append_pair_fst rs a b default
  simp only [getRecommendations]
  rw [hb, ha]
  rw [if_pos (by simp [hlen] : (rs ++ [a, b]).length > 1)]
  rw [if_neg (by simp : ¬ ([] : List CGPARecord).length > 1)]
  split_ifs <;> simp

/-- Witness for C5 on the cumulative-GPA history [3.0, 3.5]. -/
theorem trend_overlay_append_witness :
    ([⟨3.0, 3.0, 30, ⟨"Fall 2023", 2023⟩⟩, ⟨3.5, 3.5, 60, ⟨"Spring 2024", 2024⟩⟩] :
        List CGPARecord) =
      [] ++ [⟨3.0, 3.0, 30, ⟨"Fall 2023", 2023⟩⟩, ⟨3.5, 3.5, 60, ⟨"Spring 2024", 2024⟩⟩] ∧
    (getRecommendations 3.5
        [⟨3.0, 3.0, 30, ⟨"Fall 2023", 2023⟩⟩, ⟨3.5, 3.5, 60, ⟨"Spring 2024", 2024⟩⟩]).2 =
      (getRecommendations 3.5 []).2 ++
        (if (3.5 : ℚ) - 3.0 < -0.2 then
           ["Address declining performance - identify problem areas"]
         else if (3.5 : ℚ) - 3.0 > 0.2 then
           ["Great improvement! Continue with current strategies"]
         else []) :=
  ⟨rfl,
   trend_overlay_append 3.5 [] ⟨3.0, 3.0, 30, ⟨"Fall 2023", 2023⟩⟩
     ⟨3.5, 3.5, 60, ⟨"Spring 2024", 2024⟩⟩ _ rfl⟩

/-- C6: zero or one CGPA record gives trend `stable` and no overlay
recommendation; with at least two records the displayed trend compares the
two most recent cumulative GPAs strictly, with no threshold. -/
theorem trend_edge_cases :
    (∀ records : List CGPARecord, records.length ≤ 1 →
      computeTrend records = Trend.stable) ∧
    (∀ cgpa : ℚ, ∀ records : List CGPARecord, records.length ≤ 1 →
      (getRecommendations cgpa records).2 = (getRecommendations cgpa []).2) ∧
    (∀ rs : List CGPARecord, ∀ a b : CGPARecord,
      computeTrend (rs ++ [a, b]) =
        if b.cumulative_gpa > a.cumulative_gpa then Trend.up
        else if b.cumulative_gpa < a.cumulative_gpa then Trend.down
        else Trend.stable) := by
  refine ⟨?_, ?_, ?_⟩
  · intro records h
    unfold computeTrend
    rw [if_neg (by omega)]
  · intro cgpa records h
    simp only [getRecommendations]
    rw [if_neg (by omega : ¬ records.length > 1),
        if_neg (by simp : ¬ ([] : List CGPARecord).length > 1)]
  · intro rs a b
    have hlen : (rs ++ [a, b]).length = rs.length + 2 := by simp
    have hdrop : (rs ++ [a, b]).drop ((rs ++ [a, b]).length - 2) = [a, b] := by
      rw [hlen]
      simpa using List.drop_left rs [a, b]
    simp only [computeTrend]
    rw [hdrop, if_pos (by simp [hlen] : (rs ++ [a, b]).length > 1)]
    simp only [List.getD_cons_succ, List.getD_cons_zero]

/-- Witness for C6 on the empty record list. -/
theorem trend_edge_cases_witness :
    ([] : List CGPARecord).length ≤ 1 ∧ computeTrend [] = Trend.stable :=
  ⟨by decide, trend_edge_cases.1 [] (by decide)⟩

/-- C7: the four sample CGPAs map to risk levels high, medium, low, low;
every recommendation list is non-empty; and the base tier contributes
4, 4, 3, 4 recommendations in the four bands respectively. -/
theorem advisory_risk_bands :
    (([1.5, 2.5, 3.0, 3.8] : List ℚ).map (fun c => (getRecommendations c []).1) =
      [Risk.high, Risk.medium, Risk.low, Risk.low]) ∧
    (∀ cgpa : ℚ, ∀ records : List CGPARecord, (getRecommendations cgpa records).2 ≠ []) ∧
    (∀ cgpa : ℚ, (getRecommendations cgpa []).2.length =
      if cgpa < 2.0 then 4 else if cgpa < 2.7 then 4 else if cgpa < 3.3 then 3 else 4) := by
  refine ⟨by norm_num [getRecommendations], ?_, ?_⟩
  · intro cgpa records
    simp only [getRecommendations]
    split_ifs <;> simp
  · intro cgpa
    simp only [getRecommendations]
    rw [if_neg (by simp : ¬ ([] : List CGPARecord).length > 1)]
    split_ifs <;> rfl

/-- Witness for C7: the recommendation list at CGPA 3 with no history is
non-empty. -/
theorem advisory_risk_bands_witness :
    (getRecommendations 3 []).2 ≠ [] :=
  advisory_risk_bands.2.1 3 []

/-- C8: with no CGPA records the reported average CGPA is 0 and with no
results the grade histogram is empty; with at least one record the average
is the unweighted arithmetic mean of the cumulative GPAs. -/
theorem aggregation_empty_state :
    averageCGPA [] = 0 ∧ gradeDistribution [] = [] ∧
    (∀ cgpaData : List ℚ, cgpaData ≠ [] →
      averageCGPA cgpaData = cgpaData.sum / (cgpaData.length : ℚ)) := by
  refine ⟨rfl, rfl, ?_⟩
  intro l hl
  unfold averageCGPA
  rw [if_pos (by simpa [List.length_pos] using hl), List.sum_eq_foldl]

/-- Witness for C8 on the one-element record list [3]. -/
theorem aggregation_empty_state_witness :
    ([3] : List ℚ) ≠ [] ∧ averageCGPA [3] = ([3] : List ℚ).sum / (([3] : List ℚ).length : ℚ) :=
  ⟨by decide, aggregation_empty_state.2.2 [3] (by decide)⟩

/-- C10: analyzing a student with an empty CGPA record history succeeds:
the current CGPA defaults to 0, the classification is "Pass", the risk
level is high, and the four prescriptive recommendations are returned. -/
theorem empty_history_analysis :
    analyzeCGPA [] =
      ⟨0, Trend.stable, "Pass",
       ["Seek academic counseling immediately",
        "Consider reducing course load to focus on improving grades",
        "Utilize tutoring services and study groups",
        "Meet with academic advisor to discuss academic standing"], Risk.high⟩ := by
  norm_num [analyzeCGPA, computeTrend, getClassification, getRecommendations]

/-- First pending result of the C1 scenario. -/
def pendingA : PendingResult :=
  { id := "1", score := 85, grade := "A", grade_point := 4, sms_sent := false,
    students := ⟨"John", "Doe", "STU001", "+1234567890"⟩,
    courses := ⟨"CS101", "Introduction to Computer Science"⟩,
    semesters := ⟨"Fall 2024", 2024⟩ }

/-- Second pending result of the C1 scenario (its send step fails). -/
def pendingB : PendingResult :=
  { id := "2", score := 62, grade := "B", grade_point := 3, sms_sent := false,
    students := ⟨"Jane", "Smith", "STU002", "+1234567891"⟩,
    courses := ⟨"MATH201", "Calculus II"⟩,
    semesters := ⟨"Fall 2024", 2024⟩ }

/-- Third pending result of the C1 scenario. -/
def pendingC : PendingResult :=
  { id := "3", score := 47, grade := "D", grade_point := 1, sms_sent := false,
    students := ⟨"Mike", "Johnson", "STU003", "+1234567892"⟩,
    courses := ⟨"ENG101", "Technical Writing"⟩,
    semesters := ⟨"Fall 2024", 2024⟩ }

/-- Send step that fails exactly for the result with id "2". -/
def failSecond : PendingResult → Bool := fun r => r.id != "2"

/-- C1 evaluated at the claimed failing input: with 3 pending results and
the send step failing only for item 2, the bulk dispatch leaves items 1 and
3 notified and item 2 pending, and a rerun fetches only item 2 — but the
reported summary is "3 messages sent successfully, 0 failed", not
"2 messages sent successfully, 1 failed": `sendSingleSMS` catches its own
error without rethrowing, so the failure branch of `sendBulkSMS` never
runs. -/
theorem bulk_dispatch_partial_failure_eval :
    ((sendBulkSMS failSecond (fetchPendingResults [pendingA, pendingB, pendingC])
        [pendingA, pendingB, pendingC]).1.map (fun r => (r.id, r.sms_sent)) =
      [("1", true), ("2", false), ("3", true)]) ∧
    (sendBulkSMS failSecond (fetchPendingResults [pendingA, pendingB, pendingC])
        [pendingA, pendingB, pendingC]).2 = (3, 0) ∧
    bulkSummary 3 0 = "3 messages sent successfully, 0 failed" ∧
    bulkSummary 3 0 ≠ "2 messages sent successfully, 1 failed" ∧
    fetchPendingResults
        (sendBulkSMS failSecond (fetchPendingResults [pendingA, pendingB, pendingC])
          [pendingA, pendingB, pendingC]).1 = [pendingB] := by
  refine ⟨by decide, by decide, by decide, by decide, by decide⟩

/-- `sendSingleSMS` always completes normally: its catch clause swallows
the error of the try-block. -/
lemma sendSingleSMS_eq (sendOk : PendingResult → Bool) (store : List PendingResult)
    (result : PendingResult) :
    sendSingleSMS sendOk store result =
      ((sendSingleSMSTry sendOk store result).1, Except.ok ()) := by
  unfold sendSingleSMS
  rcases h : sendSingleSMSTry sendOk store result with ⟨store1, e⟩
  cases e <;> rfl

/-- Each bulk iteration increments the success count and threads the store
through `sendSingleSMS`. -/
lemma bulkStep_eq (sendOk : PendingResult → Bool) (acc : List PendingResult × ℕ × ℕ)
    (result : PendingResult) :
    bulkStep sendOk acc result =
      ((sendSingleSMS sendOk acc.1 result).1, acc.2.1 + 1, acc.2.2) := by
  unfold bulkStep
  rw [sendSingleSMS_eq]

/-- A single send preserves row ids positionally and only ever raises the
`sms_sent` flag. -/
lemma sendSingleSMS_mono (sendOk : PendingResult → Bool) (store : List PendingResult)
    (x : PendingResult) (i : ℕ) (r : PendingResult) (h : store[i]? = some r) :
    ∃ r', ((sendSingleSMS sendOk store x).1)[i]? = some r' ∧ r'.id = r.id ∧
      (r.sms_sent = true → r'.sms_sent = true) := by
  rw [sendSingleSMS_eq]
  unfold sendSingleSMSTry
  by_cases hc : sendOk x = true
  · rw [if_pos hc]
    refine ⟨if r.id = x.id then { r with sms_sent := true } else r, ?_, ?_, ?_⟩
    · rw [markSent, List.getElem?_map, h]
      rfl
    · split <;> rfl
    · intro hf
      split <;> simp [hf]
  · rw [if_neg hc]
    exact ⟨r, h, rfl, fun hf => hf⟩

/-- The bulk loop preserves row ids positionally and only ever raises the
`sms_sent` flag. -/
lemma bulk_foldl_mono (sendOk : PendingResult → Bool) (pending : List PendingResult) :
    ∀ (acc : List PendingResult × ℕ × ℕ) (i : ℕ) (r : PendingResult),
      acc.1[i]? = some r →
      ∃ r', ((pending.foldl (bulkStep sendOk) acc).1)[i]? = some r' ∧ r'.id = r.id ∧
        (r.sms_sent = true → r'.sms_sent = true) := by
  induction pending with
  | nil => exact fun acc i r h => ⟨r, h, rfl, fun hf => hf⟩
  | cons p ps ih =>
    intro acc i r h
    obtain ⟨r1, h1, hid1, hf1⟩ := sendSingleSMS_mono sendOk acc.1 p i r h
    obtain ⟨r2, h2, hid2, hf2⟩ := ih (bulkStep sendOk acc p) i r1 (by rw [bulkStep_eq]; exact h1)
    exact ⟨r2, by simpa using h2, hid2.trans hid1, fun hf => hf2 (hf1 hf)⟩

/-- Every single operation preserves row ids positionally and only ever
raises the `sms_sent` flag. -/
lemma applyOp_mono (op : Op) (store : List PendingResult) (i : ℕ) (r : PendingResult)
    (h : store[i]? = some r) :
    ∃ r', (applyOp store op)[i]? = some r' ∧ r'.id = r.id ∧
      (r.sms_sent = true → r'.sms_sent = true) := by
  cases op with
  | addResult form =>
    simp only [applyOp, handleAddResult]
    split
    · exact ⟨r, h, rfl, fun hf => hf⟩
    · have hi : i < store.length := by
        have := List.getElem?_eq_some.mp h
        exact this.1
      exact ⟨r, by rw [List.getElem?_append_left hi]; exact h, rfl, fun hf => hf⟩
  | singleSMS sendOk x => exact sendSingleSMS_mono sendOk store x i r h
  | bulkSMS sendOk pending =>
    simp only [applyOp, sendBulkSMS]
    exact bulk_foldl_mono sendOk pending (store, 0, 0) i r h

/-- C9: the `sms_sent` flag is monotonic across every reachable operation
sequence — a row that is notified stays notified (and keeps its id); no
operation ever reverts the flag from true to false. -/
theorem sms_sent_monotonic (ops : List Op) (store : List PendingResult) (i : ℕ)
    (r : PendingResult) (h : store[i]? = some r) (hflag : r.sms_sent = true) :
    ∃ r', (runOps store ops)[i]? = some r' ∧ r'.id = r.id ∧ r'.sms_sent = true := by
  induction ops generalizing store r with
  | nil => exact ⟨r, h, rfl, hflag⟩
  | cons op ops ih =>
    obtain ⟨r1, h1, hid1, hf1⟩ := applyOp_mono op store i r h
    obtain ⟨r2, h2, hid2, hf2⟩ := ih (applyOp store op) r1 h1 (hf1 hflag)
    exact ⟨r2, by simpa [runOps] using h2, hid2.trans hid1, hf2⟩

/-- Witness for C9: a notified copy of the first sample row stays notified
across a bulk dispatch whose send step always fails. -/
theorem sms_sent_monotonic_witness :
    ([{ pendingA with sms_sent := true }] : List PendingResult)[0]? =
      some { pendingA with sms_sent := true } ∧
    ({ pendingA with sms_sent := true } : PendingResult).sms_sent = true ∧
    ∃ r', (runOps [{ pendingA with sms_sent := true }]
        [Op.bulkSMS (fun _ => false) [{ pendingA with sms_sent := true }]])[0]? = some r' ∧
      r'.id = ({ pendingA with sms_sent := true } : PendingResult).id ∧
      r'.sms_sent = true :=
  ⟨rfl, rfl,
   sms_sent_monotonic [Op.bulkSMS (fun _ => false) [{ pendingA with sms_sent := true }]]
     [{ pendingA with sms_sent := true }] 0 { pendingA with sms_sent := true } rfl rfl⟩

/-- Witness for C3 at the boundary score 70. -/
theorem grade_boundary_exact_witness :
    (70 : ℚ) ≤ 70 ∧ calculateGradeInfo 70 = ⟨"A", 4.0, "bg-success"⟩ :=
  ⟨le_refl _, grade_boundary_exact.2.1 70 (le_refl _)⟩

/-- Witness for C4 at the boundary CGPA 3.7. -/
theorem classification_boundary_exact_witness :
    (3.7 : ℚ) ≤ 3.7 ∧ getClassification 3.7 = "First Class Honours" :=
  ⟨le_refl _, classification_boundary_exact.2.1 3.7 (le_refl _)⟩
